import Mathlib

/-!
Shallow embedding of the vaccel torch bindings core
(`src/torch.rs`, `src/torch/mod.rs`, `src/profile.rs`):
the typed tensor wrapper, the byte-buffer wrapper, the saved-model
lifecycle, the status/error taxonomy and the named timer service.

Machine integers are modelled as `Nat` with explicit `% 2^w` where
overflow matters.  The opaque native runtime behind the FFI surface is
not part of the repository; where its behaviour decides a claim it is
modelled from the spec (doc comments on those definitions start with
"Modelled from the spec:").  Element storage crossing the boundary is
modelled as a typed list plus the recorded byte size.
-/

namespace VaccelTorch

/-- The crate's error type (`Error::InvalidArgument`, `Error::Runtime(code)`,
`Error::TensorFlow(code)` as used in `torch.rs`). -/
inductive Error where
  | InvalidArgument : Error
  | Runtime (code : Nat) : Error
  | TensorFlowCode (code : Nat) : Error
deriving DecidableEq, Repr

/-- `Result<T>` of the crate: `Except Error`. -/
abbrev Result (α : Type) := Except Error α

/-- Outcome codes of `torch/mod.rs` (`enum Code`). -/
inductive Code where
  | Ok | Cancelled | Unkown | InvalidArgument | DeadlineExceeded
  | NotFound | AlreadyExists | PermissionDenied | ResourceExhausted
  | FailedPrecondition | Aborted | OutOfRange | Unimplemented
  | Internal | Unavailable | DataLoss | Unauthenticated
deriving DecidableEq, Repr

/-- `Code::to_u8` from `torch/mod.rs`. -/
def Code.to_u8 : Code → Nat
  | .Ok => 0
  | .Cancelled => 1
  | .Unkown => 2
  | .InvalidArgument => 3
  | .DeadlineExceeded => 4
  | .NotFound => 5
  | .AlreadyExists => 6
  | .PermissionDenied => 7
  | .ResourceExhausted => 8
  | .FailedPrecondition => 9
  | .Aborted => 10
  | .OutOfRange => 11
  | .Unimplemented => 12
  | .Internal => 13
  | .Unavailable => 14
  | .DataLoss => 15
  | .Unauthenticated => 16

/-- `enum DataType` from `torch/mod.rs`. -/
inductive DataType where
  | UnknownValue (c : Nat)
  | Float | Double | Int32 | UInt8 | Int16 | Int8 | String
  | Complex64 | Int64 | Bool | QInt8 | QUInt8 | QInt32 | BFloat16
  | QInt16 | QUInt16 | UInt16 | Complex128 | Half | Resource
  | Variant | UInt32 | UInt64
deriving DecidableEq, Repr

/-- Modelled from the spec: the FFI constants `VACCEL_TORCH_*` are the
fixed small-integer wire values of the native element-type tags
(`torch/mod.rs` uses them; their numeric values live outside the
repository).  Only their distinctness matters to the claims. -/
def VACCEL_TORCH_BYTE : Nat := 1
def VACCEL_TORCH_CHAR : Nat := 2
def VACCEL_TORCH_SHORT : Nat := 3
def VACCEL_TORCH_INT : Nat := 4
def VACCEL_TORCH_LONG : Nat := 5
def VACCEL_TORCH_HALF : Nat := 6
def VACCEL_TORCH_FLOAT : Nat := 7

/-- Modelled from the spec: the native `VACCEL_OK` success code. -/
def VACCEL_OK : Nat := 0

/-- `DataType::to_int` from `torch/mod.rs`.  The source `match` has
arms only for `Float`, `Int32`, `UInt8`, `Int16`, `Int8`, `Int64`,
`Half` and `UnknownValue(c)`; the remaining constructors have no arm
(the source is non-exhaustive there), so the embedding is
`Option`-valued, `none` on the uncovered constructors. -/
def DataType.to_int : DataType → Option Nat
  | .Float => some VACCEL_TORCH_FLOAT
  | .Int32 => some VACCEL_TORCH_INT
  | .UInt8 => some VACCEL_TORCH_BYTE
  | .Int16 => some VACCEL_TORCH_SHORT
  | .Int8 => some VACCEL_TORCH_CHAR
  | .Int64 => some VACCEL_TORCH_LONG
  | .Half => some VACCEL_TORCH_HALF
  | .UnknownValue c => some c
  | _ => none

/-- `DataType::from_int` from `torch/mod.rs`. -/
def DataType.from_int (val : Nat) : DataType :=
  if val = VACCEL_TORCH_FLOAT then .Float
  else if val = VACCEL_TORCH_INT then .Int32
  else if val = VACCEL_TORCH_BYTE then .UInt8
  else if val = VACCEL_TORCH_SHORT then .Int16
  else if val = VACCEL_TORCH_CHAR then .Int8
  else if val = VACCEL_TORCH_LONG then .Int64
  else if val = VACCEL_TORCH_HALF then .Half
  else .UnknownValue val

/-- The `TensorType` trait of `torch.rs`: a data-type tag, a unit and a
zero value, plus the element width used by `size_of::<T>()`. -/
structure TensorTypeImpl (α : Type) where
  data_type : DataType
  one : α
  zero : α
  sizeOfT : Nat

/-- `impl TensorType for f32` (element values modelled abstractly as `Int`). -/
def f32Impl : TensorTypeImpl Int := ⟨.Float, 1, 0, 4⟩

/-- `impl TensorType for i32`. -/
def i32Impl : TensorTypeImpl Int := ⟨.Int32, 1, 0, 4⟩

/-- `impl TensorType for u8`. -/
def u8Impl : TensorTypeImpl Nat := ⟨.UInt8, 1, 0, 1⟩

/-- `impl TensorType for i16`. -/
def i16Impl : TensorTypeImpl Int := ⟨.Int16, 1, 0, 2⟩

/-- `impl TensorType for i8`. -/
def i8Impl : TensorTypeImpl Int := ⟨.Int8, 1, 0, 1⟩

/-- `impl TensorType for i64`. -/
def i64Impl : TensorTypeImpl Int := ⟨.Int64, 1, 0, 8⟩

/-- `impl TensorType for f64` (its `DataType::Double` has no `to_int` arm). -/
def f64Impl : TensorTypeImpl Int := ⟨.Double, 1, 0, 8⟩

/-- `impl TensorType for bool`. -/
def boolImpl : TensorTypeImpl Bool := ⟨.Bool, true, false, 1⟩

/-- `fn product(values: &[u64]) -> u64` from `torch.rs`: `u64`
multiplication, so the running value wraps at `2^64`. -/
def product (values : List Nat) : Nat :=
  values.foldl (fun a v => a * v % 2 ^ 64) 1

/-- The mathematical product of the dimensions, for comparison with
`product` (they agree below `2^64`). -/
def mathProduct (values : List Nat) : Nat :=
  values.foldl (· * ·) 1

/-- The native `struct vaccel_torch_tensor` as the wrapper reads it:
recorded dims, the `u32` element-type tag, the backing data pointer
(`none` = null; otherwise the element payload) and the recorded byte
size. -/
structure NativeTensor (α : Type) where
  dims : List Nat
  data_type : Nat
  data : Option (List α)
  size : Nat
deriving DecidableEq, Repr

/-- `struct Tensor<T>` from `torch.rs`: the native handle (`none` =
null pointer), the local dims copy, `data_count` and the local data
vector. -/
structure Tensor (α : Type) where
  inner : Option (NativeTensor α)
  dims : List Nat
  data_count : Nat
  data : List α
deriving DecidableEq, Repr

/-- `impl Deref for Tensor<T>`: null handle gives the empty slice,
otherwise `data_count` elements read from the native data pointer. -/
def Tensor.deref {α : Type} (t : Tensor α) : List α :=
  match t.inner with
  | none => []
  | some nt => (nt.data.getD []).take t.data_count

/-- `impl DerefMut for Tensor<T>`: same region, mutably.  A write of
`xs` through the slice stores `xs` over the first `t.data_count`
elements of the native allocation; this returns the tensor after such
a write (null handle: the slice is empty, nothing is written). -/
def Tensor.writeDeref {α : Type} (t : Tensor α) (xs : List α) : Tensor α :=
  match t.inner with
  | none => t
  | some nt =>
      let old := nt.data.getD []
      let n := min t.data_count old.length
      { t with inner := some { nt with data := some ((xs.take n) ++ old.drop (xs.take n).length) } }

/-- `Tensor::<T>::new(dims)` from `torch.rs`: local zero vector of
`product(dims)` elements, native tensor allocated with the dims and
`T::data_type().to_int()` tag, then `vaccel_torch_tensor_set_data`
points it at the local vector with byte size `len * size_of::<T>()`.
The native allocation is modelled as succeeding (spec §6 treats the
runtime as a black box); the tag `getD 0` default is unreachable for
element types whose `to_int` arm exists. -/
def Tensor.new {α : Type} (impl : TensorTypeImpl α) (dims : List Nat) : Tensor α :=
  let data_count := product dims
  let data := List.replicate data_count impl.zero
  let inner : NativeTensor α :=
    { dims := dims
      data_type := (impl.data_type.to_int).getD 0
      data := some data
      size := data.length * impl.sizeOfT }
  { inner := some inner, dims := dims, data_count := data_count, data := data }

/-- `Tensor::<T>::from_vaccel_tensor(tensor)` from `torch.rs`: null
handle or recorded-tag mismatch fail with `InvalidArgument`; otherwise
the dims are read back, `data_count = product(dims)`, and the local
copy is zero-filled when the native data pointer is null (the source
passes `data_count * size_of::<T>()` as the element length of the
copied slice, reproduced here as a `take` of that many elements). -/
def Tensor.from_vaccel_tensor {α : Type} (impl : TensorTypeImpl α)
    (tensor : Option (NativeTensor α)) : Result (Tensor α) :=
  match tensor with
  | none => .error .InvalidArgument
  | some nt =>
      if DataType.from_int nt.data_type ≠ impl.data_type then
        .error .InvalidArgument
      else
        let dims := nt.dims
        let data_count := product dims
        let data :=
          match nt.data with
          | none => List.replicate data_count impl.zero
          | some l => l.take (data_count * impl.sizeOfT)
        .ok { inner := some nt, dims := dims, data_count := data_count, data := data }

/-- `Tensor::with_data(data)` from `torch.rs`: length check against
`data_count`, then the elements are cloned into the mutable element
view (`self.iter_mut().zip(data)`). -/
def Tensor.with_data {α : Type} (t : Tensor α) (data : List α) : Result (Tensor α) :=
  if data.length ≠ t.data_count then
    .error .InvalidArgument
  else
    .ok (t.writeDeref data)

/-- `Tensor::nr_dims`. -/
def Tensor.nr_dims {α : Type} (t : Tensor α) : Nat := t.dims.length

/-- `Tensor::dim(idx)` from `torch.rs`. -/
def Tensor.dim {α : Type} (t : Tensor α) (idx : Nat) : Result Nat :=
  if idx ≥ t.dims.length then
    .error (.TensorFlowCode Code.OutOfRange.to_u8)
  else
    .ok (t.dims.getD idx 0)

/-- The gRPC `TorchTensor` wire form as `as_grpc` fills it: raw data
bytes (modelled as the copied element payload plus the byte size it was
read with), the dims clone and the `TorchDataType` tag value. -/
structure WireTensor (α : Type) where
  data : List α
  size : Nat
  dims : List Nat
  field_type : Nat
deriving DecidableEq, Repr

/-- `Tensor::as_grpc` from `torch.rs`: reads `(*inner).size` bytes at
`(*inner).data` into an owned copy, clones `self.dims`, and converts
`self.data_type().to_int()` through `TorchDataType::from_i32(..)`
(modelled from the spec: the protobuf enum carries the same wire value,
so the tag value survives unchanged; the `getD`s are unreachable on a
tensor with a live handle and a defined tag).  A pure read: the tensor
is not modified. -/
def Tensor.as_grpc {α : Type} (impl : TensorTypeImpl α) (t : Tensor α) : WireTensor α :=
  let nt := t.inner.getD { dims := [], data_type := 0, data := none, size := 0 }
  { data := nt.data.getD []
    size := nt.size
    dims := t.dims
    field_type := (impl.data_type.to_int).getD 0 }

/-- `impl TensorAny for TorchTensor` (`inner`/`inner_mut`) from
`torch.rs`: converts the wire form back into a native tensor —
`vaccel_torch_tensor_new(dims.len(), dims, field_type.value())`
followed by `vaccel_torch_tensor_set_data(data, data.len())`. -/
def WireTensor.toNative {α : Type} (w : WireTensor α) : NativeTensor α :=
  { dims := w.dims
    data_type := w.field_type
    data := some w.data
    size := w.size }

/-- The native `struct vaccel_torch_buffer` as the wrapper uses it:
the attached data region (`none` after a take or for a null pointer),
identified by an abstract allocation id, and its size. -/
structure NativeBuffer where
  data : Option Nat
  size : Nat
deriving DecidableEq, Repr

/-- `struct Buffer` from `torch.rs`: native handle plus the
`vaccel_owned` flag. -/
structure Buffer where
  inner : NativeBuffer
  vaccel_owned : Bool
deriving DecidableEq, Repr

/-- `Buffer::new(data)` from `torch.rs`: wraps the caller allocation
(id `alloc`, `len` bytes) via `vaccel_torch_buffer_new`, which succeeds
(the source asserts non-null); `vaccel_owned` is `false`. -/
def Buffer.new (alloc : Nat) (len : Nat) : Buffer :=
  { inner := { data := some alloc, size := len }, vaccel_owned := false }

/-- `Buffer::from_vaccel_buffer(buffer)` from `torch.rs`: reads the
data pointer and size back from the handle; null data or zero size
fail with `InvalidArgument`; otherwise `vaccel_owned` is `true`. -/
def Buffer.from_vaccel_buffer (buffer : NativeBuffer) : Result Buffer :=
  if buffer.data.isNone ∨ buffer.size = 0 then
    .error .InvalidArgument
  else
    .ok { inner := buffer, vaccel_owned := true }

/-- The FFI calls `impl Drop for Buffer` can issue. -/
inductive BufOp where
  | takeData
  | destroyBuf
deriving DecidableEq, Repr

/-- `impl Drop for Buffer` from `torch.rs` as the sequence of native
calls it issues: when the data is not vaccel-owned,
`vaccel_torch_buffer_take_data` first, then always
`vaccel_torch_buffer_destroy`. -/
def Buffer.dropTrace (b : Buffer) : List BufOp :=
  if ¬ b.vaccel_owned then [.takeData, .destroyBuf] else [.destroyBuf]

/-- Effect of running a drop trace against the native buffer handle. -/
structure DropEffect where
  dataFrees : List Nat
  handleDestroys : Nat
deriving DecidableEq, Repr

/-- Modelled from the spec: semantics of the two native buffer calls
(§6): `buffer-take-data` detaches the data reference from the handle;
`buffer-destroy` frees whatever data is still attached and then
releases the handle object itself (the handle destructor owns whatever
is still referenced — the behaviour the wrapper's detach step guards
against). -/
def runBufOps : List BufOp → NativeBuffer → DropEffect
  | [], _ => { dataFrees := [], handleDestroys := 0 }
  | .takeData :: rest, nb => runBufOps rest { nb with data := none }
  | .destroyBuf :: rest, nb =>
      let eff := runBufOps rest { nb with data := none }
      { eff with
        dataFrees := (match nb.data with | some a => [a] | none => []) ++ eff.dataFrees
        handleDestroys := eff.handleDestroys + 1 }

/-- The full effect of dropping a `Buffer`. -/
def Buffer.dropEffect (b : Buffer) : DropEffect :=
  runBufOps b.dropTrace b.inner

/-- `struct SavedModel` from `torch.rs`: the native saved-model handle,
reduced to the state the wrapper observes — the registration identity
(`none` while unregistered or after destruction; `VaccelId::has_id` is
its `isSome`). -/
structure SavedModel where
  ident : Option Nat
deriving DecidableEq, Repr

/-- `SavedModel::new` (`vaccel_torch_saved_model_new`): modelled from
the spec, a fresh native model has no identity until registration
(§3). -/
def SavedModel.new : SavedModel := { ident := none }

/-- `SavedModel::id` via `vaccel_torch_saved_model_id`. -/
def SavedModel.id (m : SavedModel) : Option Nat := m.ident

/-- `SavedModel::initialized`: `self.id().has_id()`. -/
def SavedModel.initialized (m : SavedModel) : Bool := m.id.isSome

/-- Modelled from the spec: `vaccel_torch_saved_model_destroy` —
destruction never fails (§7, returns `VACCEL_OK`) and afterwards the
model is no longer registered, so it reports no identity (§3: identity
present iff `Registered`). -/
def nativeSavedModelDestroy (_m : SavedModel) : Nat × SavedModel :=
  (VACCEL_OK, { ident := none })

/-- `SavedModel::destory` from `torch.rs` (sic): trivial `Ok` when not
initialized, otherwise the native destroy call decides.  Besides the
result and the new state, the number of native destroy calls issued is
recorded. -/
def SavedModel.destory (m : SavedModel) : Result Unit × SavedModel × Nat :=
  if ¬ m.initialized then
    (.ok (), m, 0)
  else
    let (code, m') := nativeSavedModelDestroy m
    if code = VACCEL_OK then (.ok (), m', 1) else (.error (.Runtime code), m', 1)

/-- `impl Resource for SavedModel { fn destroy(..) }` from `torch.rs`:
its body is `self.destroy()` — the trait method itself, since the
inherent method is spelled `destory` — so the call recurses.  Embedded
with explicit fuel: `none` means the recursion consumed all fuel
without producing a result. -/
def resourceDestroy (fuel : Nat) (m : SavedModel) : Option (Result Unit × SavedModel × Nat) :=
  match fuel with
  | 0 => none
  | n + 1 => resourceDestroy n m

/-- `struct Status` from `torch/mod.rs`: the native
`vaccel_torch_status` — a `u8` error code and the native-owned message
pointer (`none` = null; otherwise the pointed-to bytes, which include
the NUL terminator somewhere or not at all for the embedding's
purposes — `CStr::from_ptr` reads up to the first NUL). -/
structure Status where
  error_code : Nat
  message_ptr : Option (List Nat)
deriving DecidableEq, Repr

/-- Whether a byte is a UTF-8 continuation byte (`0x80..=0xBF`). -/
def utf8Cont (b : Nat) : Bool := 0x80 ≤ b ∧ b ≤ 0xBF

/-- UTF-8 validity of a byte sequence, as `str::from_utf8` checks it
(rejecting overlong forms, surrogates and values above U+10FFFF). -/
def utf8Valid : List Nat → Bool
  | [] => true
  | b :: rest =>
      if b ≤ 0x7F then utf8Valid rest
      else if b < 0xC2 then false
      else if b ≤ 0xDF then
        match rest with
        | c1 :: r => utf8Cont c1 && utf8Valid r
        | [] => false
      else if b ≤ 0xEF then
        match rest with
        | c1 :: c2 :: r =>
            (if b = 0xE0 then decide (0xA0 ≤ c1 ∧ c1 ≤ 0xBF)
             else if b = 0xED then decide (0x80 ≤ c1 ∧ c1 ≤ 0x9F)
             else utf8Cont c1) && utf8Cont c2 && utf8Valid r
        | _ => false
      else if b ≤ 0xF4 then
        match rest with
        | c1 :: c2 :: c3 :: r =>
            (if b = 0xF0 then decide (0x90 ≤ c1 ∧ c1 ≤ 0xBF)
             else if b = 0xF4 then decide (0x80 ≤ c1 ∧ c1 ≤ 0x8F)
             else utf8Cont c1) && utf8Cont c2 && utf8Cont c3 && utf8Valid r
        | _ => false
      else false

/-- `CStr::from_ptr`: the pointed-to bytes before the first NUL. -/
def cstrRead (bytes : List Nat) : List Nat :=
  bytes.takeWhile (· ≠ 0)

/-- `Status::message` from `torch/mod.rs`: empty on a null pointer;
otherwise `CStr::from_ptr` takes the bytes before the first NUL and
`to_str().unwrap_or("")` yields them when valid UTF-8, the empty
string otherwise.  Strings are modelled as their byte content. -/
def Status.message (s : Status) : List Nat :=
  match s.message_ptr with
  | none => []
  | some bytes =>
      let c := cstrRead bytes
      if utf8Valid c then c else []

/-- `Status::is_ok` from `torch/mod.rs`. -/
def Status.is_ok (s : Status) : Bool := s.error_code = Code.Ok.to_u8

/-- `struct Timer` from `profile.rs`: an `Instant` start mark and a
`Duration` (default 0) — both modelled as `Nat` clock readings. -/
structure Timer where
  start : Nat
  time : Nat
deriving DecidableEq, Repr

/-- `Timer::default()` at current instant `now`. -/
def Timer.fresh (now : Nat) : Timer := { start := now, time := 0 }

/-- `struct Timers(HashMap<String, Vec<Timer>>)` from `profile.rs`,
the map as an association list keyed by name. -/
structure Timers where
  map : List (String × List Timer)
deriving DecidableEq, Repr

/-- `Timers::new`. -/
def Timers.new : Timers := { map := [] }

/-- Lookup in the timer map (`HashMap::get` / presence for `entry`). -/
def findTimers : List (String × List Timer) → String → Option (List Timer)
  | [], _ => none
  | (k, v) :: rest, name => if k = name then some v else findTimers rest name

/-- `Entry::and_modify` without `or_insert`: update the value in place
when the key is present, otherwise leave the map unchanged. -/
def andModify (m : List (String × List Timer)) (name : String)
    (f : List Timer → List Timer) : List (String × List Timer) :=
  match m with
  | [] => []
  | (k, v) :: rest =>
      if k = name then (k, f v) :: rest else (k, v) :: andModify rest name f

/-- `Timers::start(name)` from `profile.rs` (debug_assertions on):
push a fresh `Timer::default()` onto the name's vector, inserting a
singleton vector if the name is new. -/
def Timers.start (ts : Timers) (now : Nat) (name : String) : Timers :=
  match findTimers ts.map name with
  | some _ => { map := andModify ts.map name (fun e => e ++ [Timer.fresh now]) }
  | none => { map := ts.map ++ [(name, [Timer.fresh now])] }

/-- `Timers::stop(name)` from `profile.rs` (debug_assertions on):
`entry(name).and_modify` sets the LAST timer's `time` to
`start.elapsed()` — unconditionally, whether or not that shot was
already stopped; an absent name is untouched (no `or_insert`). -/
def Timers.stop (ts : Timers) (now : Nat) (name : String) : Timers :=
  { map := andModify ts.map name (fun e =>
      match e.getLast? with
      | none => e
      | some t => e.dropLast ++ [{ t with time := now - t.start }]) }

/-! ### Helper lemmas -/

/-- The wrapping `u64` fold is the mathematical fold reduced mod `2^64`. -/
theorem foldl_wrap_eq_mod (l : List Nat) (a : Nat) :
    List.foldl (fun x v => x * v % 2 ^ 64) (a % 2 ^ 64) l =
      List.foldl (· * ·) a l % 2 ^ 64 := by
  induction l generalizing a with
  | nil => rfl
  | cons v rest ih =>
      simp only [List.foldl_cons]
      rw [Nat.mod_mul_mod]
      exact ih (a * v)

/-- `product` is `mathProduct` reduced mod `2^64`. -/
theorem product_eq_mathProduct_mod (l : List Nat) :
    product l = mathProduct l % 2 ^ 64 := by
  have h := foldl_wrap_eq_mod l 1
  simpa [product, mathProduct] using h

/-- Below the `u64` bound, `product` is the mathematical product. -/
theorem product_eq_of_lt (l : List Nat) (h : mathProduct l < 2 ^ 64) :
    product l = mathProduct l := by
  rw [product_eq_mathProduct_mod]
  exact Nat.mod_eq_of_lt h

/-- `andModify` on an absent key leaves the map unchanged. -/
theorem andModify_of_not_found (m : List (String × List Timer)) (name : String)
    (f : List Timer → List Timer) (h : findTimers m name = none) :
    andModify m name f = m := by
  induction m with
  | nil => rfl
  | cons hd rest ih =>
      obtain ⟨k, v⟩ := hd
      simp only [findTimers] at h
      simp only [andModify]
      by_cases hk : k = name
      · simp [hk] at h
      · simp only [if_neg hk]
        rw [ih]
        simpa [hk] using h

/-- `andModify` applies `f` to the value found at the key. -/
theorem findTimers_andModify_self (m : List (String × List Timer)) (name : String)
    (f : List Timer → List Timer) (e : List Timer) (h : findTimers m name = some e) :
    findTimers (andModify m name f) name = some (f e) := by
  induction m with
  | nil => simp [findTimers] at h
  | cons hd rest ih =>
      obtain ⟨k, v⟩ := hd
      simp only [findTimers] at h
      simp only [andModify]
      by_cases hk : k = name
      · simp only [if_pos hk] at h ⊢
        simp only [findTimers, if_pos hk]
        simp_all
      · simp only [if_neg hk] at h ⊢
        simp only [findTimers, if_neg hk]
        exact ih h

/-- `andModify` leaves other keys untouched. -/
theorem findTimers_andModify_other (m : List (String × List Timer)) (name other : String)
    (f : List Timer → List Timer) (h : other ≠ name) :
    findTimers (andModify m name f) other = findTimers m other := by
  induction m with
  | nil => rfl
  | cons hd rest ih =>
      obtain ⟨k, v⟩ := hd
      simp only [andModify]
      by_cases hk : k = name
      · subst hk
        simp only [if_pos rfl, findTimers]
        rw [if_neg (by exact fun hko => h hko.symm), if_neg (by exact fun hko => h hko.symm)]
      · simp only [if_neg hk, findTimers]
        by_cases hko : k = other
        · simp [hko]
        · simp only [if_neg hko]
          exact ih

/-- `DataType.from_int` inverts the wire tag: if a data type's
recorded wire value is `k` and `from_int r` yields that data type,
then `r = k`. -/
theorem from_int_to_int (r k : Nat) (dt : DataType) (hto : dt.to_int = some k)
    (hfrom : DataType.from_int r = dt) : r = k := by
  unfold DataType.from_int at hfrom
  repeat' split at hfrom
  all_goals subst hfrom
  all_goals
    simp_all [DataType.to_int, VACCEL_TORCH_FLOAT, VACCEL_TORCH_INT, VACCEL_TORCH_BYTE,
      VACCEL_TORCH_SHORT, VACCEL_TORCH_CHAR, VACCEL_TORCH_LONG, VACCEL_TORCH_HALF]

/-- The image of `DataType.from_int` always has a wire tag. -/
theorem from_int_to_int_isSome (r : Nat) : (DataType.from_int r).to_int.isSome := by
  unfold DataType.from_int
  repeat' split
  all_goals simp [DataType.to_int]

/-! ### Claims -/

/-- C4 counterexample: for `d = [2^32, 2^32, 2]` the source's `u64`
product wraps (the mathematical product is `2^65`), so the fresh
tensor's element count is `0`, not the product of the entries of `d`. -/
theorem c4_counterexample :
    (Tensor.new i32Impl [2 ^ 32, 2 ^ 32, 2]).data_count ≠ mathProduct [2 ^ 32, 2 ^ 32, 2] := by
  decide

/-- C4 (amended): for every dimension sequence `d` whose mathematical
product fits in `u64` — otherwise the source's `u64` product wraps
(or panics, in a debug build) — a freshly constructed `Tensor::new(d)`
has element count equal to the product of the entries of `d`, and
every one of its elements — read through the element view — equals the
element type's zero value. -/
theorem c4_tensor_new_count_and_zero {α : Type} (impl : TensorTypeImpl α) (dims : List Nat)
    (h : mathProduct dims < 2 ^ 64) :
    (Tensor.new impl dims).data_count = mathProduct dims ∧
    (Tensor.new impl dims).deref = List.replicate (mathProduct dims) impl.zero := by
  have hp : product dims = mathProduct dims := product_eq_of_lt dims h
  constructor
  · simp [Tensor.new, hp]
  · simp [Tensor.new, Tensor.deref, hp, List.take_replicate]

/-- Witness for C4 at `d = [2,3]` over the `i32` element type. -/
theorem c4_witness :
    (Tensor.new i32Impl [2, 3]).data_count = mathProduct [2, 3] ∧
    (Tensor.new i32Impl [2, 3]).deref = List.replicate (mathProduct [2, 3]) i32Impl.zero :=
  c4_tensor_new_count_and_zero i32Impl [2, 3] (by decide)

/-- C2: for a tensor whose native handle is live, whose native
allocation holds exactly `data_count` elements and whose `data_count`
is the product of its dimensions (all true of constructed tensors),
`with_data(data)` fails — with `InvalidArgument` — iff `data.len()`
differs from the product of the dimensions; on success the dimensions,
the element count and the native handle's recorded dims/type/size are
unchanged and reading the elements back yields exactly `data`. -/
theorem c2_with_data_spec {α : Type} (t : Tensor α) (data : List α)
    (nt : NativeTensor α) (l : List α)
    (hinner : t.inner = some nt) (hdata : nt.data = some l)
    (hlen : l.length = t.data_count) (hcount : t.data_count = mathProduct t.dims) :
    ((∃ e, t.with_data data = .error e) ↔ data.length ≠ mathProduct t.dims) ∧
    (data.length ≠ mathProduct t.dims → t.with_data data = .error .InvalidArgument) ∧
    (∀ t', t.with_data data = .ok t' →
      t'.dims = t.dims ∧ t'.data_count = t.data_count ∧
      (∃ nt', t'.inner = some nt' ∧ nt'.dims = nt.dims ∧
        nt'.data_type = nt.data_type ∧ nt'.size = nt.size) ∧
      t'.deref = data) := by
  by_cases hne : data.length = mathProduct t.dims
  · have hguard : ¬ data.length ≠ t.data_count := by
      rw [hcount]; exact fun hc => hc hne
    have hok : t.with_data data = .ok (t.writeDeref data) := by
      simp [Tensor.with_data, hguard]
    refine ⟨?_, ?_, ?_⟩
    · constructor
      · rintro ⟨e, he⟩
        rw [hok] at he
        exact absurd he (by simp)
      · intro hc; exact absurd hne hc
    · intro hc; exact absurd hne hc
    · intro t' ht'
      rw [hok] at ht'
      have ht'' : t' = t.writeDeref data := by
        injection ht' with h1; exact h1.symm
      subst ht''
      have hlen2 : data.length = t.data_count := by rw [hcount]; exact hne
      have hmin : min t.data_count (nt.data.getD []).length = t.data_count := by
        rw [hdata]; simp [hlen]
      have htake : data.take t.data_count = data := by
        rw [← hlen2]; exact List.take_length data
      have hdrop2 : List.drop data.length l = [] := by
        rw [hlen2, ← hlen]
        exact List.drop_length l
      have hwi : (t.writeDeref data).inner = some { nt with data := some data } := by
        simp only [Tensor.writeDeref, hinner, hdata, Option.getD_some, hlen, min_self,
          htake, hdrop2, List.append_nil]
      refine ⟨?_, ?_, ?_, ?_⟩
      · simp [Tensor.writeDeref, hinner]
      · simp [Tensor.writeDeref, hinner]
      · exact ⟨{ nt with data := some data }, hwi, rfl, rfl, rfl⟩
      · have hcnt : (t.writeDeref data).data_count = t.data_count := by
          simp [Tensor.writeDeref, hinner]
        simp only [Tensor.deref, hwi, hcnt, Option.getD_some]
        rw [← hlen2]
        exact List.take_length data
  · have hguard : data.length ≠ t.data_count := by rw [hcount]; exact hne
    have herr : t.with_data data = .error .InvalidArgument := by
      simp [Tensor.with_data, hguard]
    refine ⟨?_, fun _ => herr, ?_⟩
    · exact ⟨fun _ => hne, fun _ => ⟨_, herr⟩⟩
    · intro t' ht'
      rw [herr] at ht'
      exact absurd ht' (by simp)

/-- Witness for C2: the fresh `[2,3]` i32 tensor accepts a 6-element
write and reads it back; the length-5 write fails. -/
theorem c2_witness :
    ((Tensor.new i32Impl [2, 3]).with_data [1, 2, 3, 4, 5, 6] =
      .ok ((Tensor.new i32Impl [2, 3]).writeDeref [1, 2, 3, 4, 5, 6]) ∧
      ((Tensor.new i32Impl [2, 3]).writeDeref [1, 2, 3, 4, 5, 6]).deref = [1, 2, 3, 4, 5, 6]) ∧
    (Tensor.new i32Impl [2, 3]).with_data [1, 2, 3, 4, 5] = .error .InvalidArgument := by
  have h := c2_with_data_spec (Tensor.new i32Impl [2, 3]) [1, 2, 3, 4, 5, 6]
    { dims := [2, 3], data_type := VACCEL_TORCH_INT
      data := some (List.replicate 6 (0 : Int)), size := 24 }
    (List.replicate 6 (0 : Int)) (by rfl) (by rfl) (by decide) (by decide)
  have h' := c2_with_data_spec (Tensor.new i32Impl [2, 3]) [1, 2, 3, 4, 5]
    { dims := [2, 3], data_type := VACCEL_TORCH_INT
      data := some (List.replicate 6 (0 : Int)), size := 24 }
    (List.replicate 6 (0 : Int)) (by rfl) (by rfl) (by decide) (by decide)
  refine ⟨⟨by rfl, ?_⟩, h'.2.1 (by decide)⟩
  exact (h.2.2 _ (by rfl)).2.2.2

/-- C9: reading or mutably accessing the element view of a tensor
whose native handle is null yields the empty slice, and a write
through the mutable view touches nothing. -/
theorem c9_null_handle_empty_view {α : Type} (t : Tensor α) (h : t.inner = none) :
    t.deref = [] ∧ ∀ xs : List α, t.writeDeref xs = t := by
  constructor
  · simp [Tensor.deref, h]
  · intro xs; simp [Tensor.writeDeref, h]

/-- Witness for C9 at a concrete null-handle tensor with a nonzero
recorded element count. -/
theorem c9_witness :
    (Tensor.deref { inner := none, dims := [5], data_count := 5, data := ([] : List Int) }) = [] ∧
    ∀ xs : List Int,
      Tensor.writeDeref { inner := none, dims := [5], data_count := 5, data := [] } xs =
        { inner := none, dims := [5], data_count := 5, data := [] } :=
  c9_null_handle_empty_view { inner := none, dims := [5], data_count := 5, data := [] } rfl

/-- C3: importing a null native tensor handle as `Tensor<T>` fails
with `InvalidArgument`; for every static element type whose wire tag
is `k`, importing a handle whose recorded element-type tag is any
value other than `k` fails with `InvalidArgument`; and for a static
element type whose data type has no wire tag at all (no `to_int` arm
in the source), every import fails — so a differing recorded tag is
always rejected. -/
theorem c3_from_vaccel_tensor_mismatch {α : Type} (impl : TensorTypeImpl α) (k : Nat)
    (hk : impl.data_type.to_int = some k) :
    Tensor.from_vaccel_tensor impl none = .error .InvalidArgument ∧
    (∀ nt : NativeTensor α, nt.data_type ≠ k →
      Tensor.from_vaccel_tensor impl (some nt) = .error .InvalidArgument) ∧
    (∀ impl' : TensorTypeImpl α, impl'.data_type.to_int = none →
      ∀ nt : NativeTensor α,
        Tensor.from_vaccel_tensor impl' (some nt) = .error .InvalidArgument) := by
  refine ⟨rfl, ?_, ?_⟩
  · intro nt hne
    have hmis : DataType.from_int nt.data_type ≠ impl.data_type := by
      intro heq
      exact hne (from_int_to_int nt.data_type k impl.data_type hk heq)
    simp [Tensor.from_vaccel_tensor, hmis]
  · intro impl' hnone nt
    have hmis : DataType.from_int nt.data_type ≠ impl'.data_type := by
      intro heq
      have hs := from_int_to_int_isSome nt.data_type
      rw [heq, hnone] at hs
      simp at hs
    simp [Tensor.from_vaccel_tensor, hmis]

/-- Witness for C3: a float-tagged handle (and a null handle) rejected
by the i32 import. -/
theorem c3_witness :
    Tensor.from_vaccel_tensor i32Impl (none : Option (NativeTensor Int)) =
      .error .InvalidArgument ∧
    Tensor.from_vaccel_tensor i32Impl
      (some { dims := [2], data_type := VACCEL_TORCH_FLOAT, data := none, size := 0 }) =
      .error .InvalidArgument := by
  have h := c3_from_vaccel_tensor_mismatch (α := Int) i32Impl VACCEL_TORCH_INT rfl
  exact ⟨h.1, h.2.1 _ (by decide)⟩

/-- C5: for a tensor whose native handle is live with a non-null data
pointer, whose wrapper dims agree with the handle's recorded dims and
whose recorded tag is the element type's wire tag (all true of
constructed tensors), converting to the wire form (`as_grpc`) and back
into a native tensor reproduces the original handle exactly —
identical dimensions, identical element-type tag and identical raw
bytes (payload and recorded byte size); `as_grpc` itself is a pure
read of the tensor. -/
theorem c5_grpc_round_trip {α : Type} (impl : TensorTypeImpl α) (t : Tensor α)
    (nt : NativeTensor α) (l : List α) (k : Nat)
    (hk : impl.data_type.to_int = some k) (hinner : t.inner = some nt)
    (hdims : nt.dims = t.dims) (htag : nt.data_type = k) (hdata : nt.data = some l) :
    (t.as_grpc impl).toNative = nt ∧
    (t.as_grpc impl).dims = t.dims ∧
    (t.as_grpc impl).field_type = k := by
  refine ⟨?_, rfl, ?_⟩
  · simp only [Tensor.as_grpc, WireTensor.toNative, hinner, Option.getD_some, hdata, hk]
    cases nt
    simp_all
  · simp [Tensor.as_grpc, hk]

/-- Witness for C5 at the fresh `[2,3]` i32 tensor. -/
theorem c5_witness :
    ((Tensor.new i32Impl [2, 3]).as_grpc i32Impl).toNative =
      { dims := [2, 3], data_type := VACCEL_TORCH_INT
        data := some (List.replicate 6 (0 : Int)), size := 24 } ∧
    ((Tensor.new i32Impl [2, 3]).as_grpc i32Impl).dims = (Tensor.new i32Impl [2, 3]).dims ∧
    ((Tensor.new i32Impl [2, 3]).as_grpc i32Impl).field_type = VACCEL_TORCH_INT :=
  c5_grpc_round_trip i32Impl (Tensor.new i32Impl [2, 3])
    { dims := [2, 3], data_type := VACCEL_TORCH_INT
      data := some (List.replicate 6 (0 : Int)), size := 24 }
    (List.replicate 6 (0 : Int)) VACCEL_TORCH_INT rfl rfl rfl rfl rfl

/-- C1: dropping a `Buffer` built from caller bytes issues the detach
(take-data) before the handle destroy, so the native side frees no
allocation at all and the handle is destroyed exactly once; dropping a
`Buffer` imported from a native handle (whose attached data is `d`)
skips the detach and destroys the handle directly, which frees the
native-owned data `d` exactly once and the handle exactly once. -/
theorem c1_buffer_drop_safety (alloc len : Nat) (nb : NativeBuffer) (d : Nat)
    (hd : nb.data = some d) :
    (Buffer.new alloc len).dropTrace = [.takeData, .destroyBuf] ∧
    (Buffer.new alloc len).dropEffect = { dataFrees := [], handleDestroys := 1 } ∧
    ∀ b, Buffer.from_vaccel_buffer nb = .ok b →
      b.dropTrace = [.destroyBuf] ∧
      b.dropEffect = { dataFrees := [d], handleDestroys := 1 } := by
  refine ⟨rfl, rfl, ?_⟩
  intro b hb
  unfold Buffer.from_vaccel_buffer at hb
  split at hb
  · exact absurd hb (by simp)
  · have hb' : b = { inner := nb, vaccel_owned := true } := by
      injection hb with h1; exact h1.symm
    subst hb'
    refine ⟨rfl, ?_⟩
    simp [Buffer.dropEffect, Buffer.dropTrace, runBufOps, hd]

/-- Witness for C1: caller buffer (allocation 42, 10 bytes) and a
native import whose attached data is allocation 7. -/
theorem c1_witness :
    (Buffer.new 42 10).dropEffect = { dataFrees := [], handleDestroys := 1 } ∧
    ∀ b, Buffer.from_vaccel_buffer { data := some 7, size := 3 } = .ok b →
      b.dropTrace = [.destroyBuf] ∧
      b.dropEffect = { dataFrees := [7], handleDestroys := 1 } :=
  ⟨(c1_buffer_drop_safety 42 10 { data := some 7, size := 3 } 7 rfl).2.1,
   (c1_buffer_drop_safety 42 10 { data := some 7, size := 3 } 7 rfl).2.2⟩

/-- C6: a fresh `SavedModel` reports no identity; destroying a model
that reports no identity returns `Ok` without issuing the native
destroy call; and after any destroy the next destroy succeeds
trivially (no native call). -/
theorem c6_saved_model_destroy (m : SavedModel) :
    SavedModel.new.initialized = false ∧
    SavedModel.new.destory = (.ok (), SavedModel.new, 0) ∧
    (¬ m.initialized → m.destory = (.ok (), m, 0)) ∧
    (m.destory.2.1).destory = (.ok (), m.destory.2.1, 0) := by
  refine ⟨rfl, rfl, ?_, ?_⟩
  · intro h
    simp [SavedModel.destory, h]
  · rcases hm : m.ident with _ | v
    · simp [SavedModel.destory, SavedModel.initialized, SavedModel.id, hm]
    · simp [SavedModel.destory, SavedModel.initialized, SavedModel.id, hm,
        nativeSavedModelDestroy, VACCEL_OK]

/-- Witness for C6: a never-registered model destroyed trivially, and
a registered model (identity 5) destroyed twice, trivially the second
time. -/
theorem c6_witness :
    SavedModel.new.destory = (.ok (), SavedModel.new, 0) ∧
    ((SavedModel.mk (some 5)).destory.2.1).destory =
      (.ok (), (SavedModel.mk (some 5)).destory.2.1, 0) :=
  ⟨(c6_saved_model_destroy SavedModel.new).2.2.1 (by decide),
   (c6_saved_model_destroy (SavedModel.mk (some 5))).2.2.2⟩

/-- C10 (refuting the claim as the code stands): the `Resource` trait
implementation's `destroy` — whose body is the self-call
`self.destroy()` — produces no result at any recursion depth, for any
model, while the model's own destruction method `destory` always
returns `Ok` on a fresh model; so the trait path neither terminates
nor matches the direct call. -/
theorem c10_resource_destroy_diverges :
    (∀ (fuel : Nat) (m : SavedModel), resourceDestroy fuel m = none) ∧
    SavedModel.new.destory.1 = .ok () := by
  refine ⟨?_, rfl⟩
  intro fuel
  induction fuel with
  | zero => intro m; rfl
  | succ n ih => intro m; simpa [resourceDestroy] using ih m

/-- C7: `Status::message` yields the bytes behind the native message
pointer when they are valid UTF-8, and the empty string — never a
failure — when the pointer is null or the bytes (up to the first NUL)
are not valid UTF-8. -/
theorem c7_status_message (s : Status) :
    (s.message_ptr = none → s.message = []) ∧
    (∀ bytes, s.message_ptr = some bytes →
      (utf8Valid (cstrRead bytes) = true → s.message = cstrRead bytes) ∧
      (utf8Valid (cstrRead bytes) = false → s.message = [])) := by
  constructor
  · intro h; simp [Status.message, h]
  · intro bytes h
    constructor
    · intro hv; simp only [Status.message, h, hv, if_true]
    · intro hv; simp only [Status.message, h, hv, if_false, Bool.false_eq_true]

/-- Witness for C7: null pointer, an invalid-UTF-8 message (`0xFF`)
and a valid message (`"hi"`), the latter read up to its NUL. -/
theorem c7_witness :
    Status.message { error_code := 0, message_ptr := none } = [] ∧
    Status.message { error_code := 0, message_ptr := some [255, 0] } = [] ∧
    Status.message { error_code := 0, message_ptr := some [104, 105, 0, 99] } = [104, 105] :=
  ⟨(c7_status_message { error_code := 0, message_ptr := none }).1 rfl,
   ((c7_status_message { error_code := 0, message_ptr := some [255, 0] }).2
      [255, 0] rfl).2 (by decide),
   ((c7_status_message { error_code := 0, message_ptr := some [104, 105, 0, 99] }).2
      [104, 105, 0, 99] rfl).1 (by decide)⟩

/-- C8 counterexample: after `start("x")` at instant 0 and `stop("x")`
at instant 1, the single shot under `"x"` is closed (elapsed 1), so
the claim says a further `stop("x")` leaves the history unchanged —
but at instant 2 it overwrites the closed shot's elapsed time with 2. -/
theorem c8_counterexample :
    ((Timers.new.start 0 "x").stop 1 "x").map = [("x", [{ start := 0, time := 1 }])] ∧
    (((Timers.new.start 0 "x").stop 1 "x").stop 2 "x").map =
      [("x", [{ start := 0, time := 2 }])] ∧
    (((Timers.new.start 0 "x").stop 1 "x").stop 2 "x") ≠
      ((Timers.new.start 0 "x").stop 1 "x") := by
  refine ⟨rfl, rfl, ?_⟩
  decide

/-- C8 amended: `stop(name)` records `now - start` into the most
recently opened shot for `name` whether or not that shot is still open
(a repeated stop overwrites the last shot's recorded time and never
touches earlier shots), leaves every other name's history unchanged,
and is a total no-op — no recorded shot, no panic — when `name` was
never started. -/
theorem c8_stop_amended (ts : Timers) (now : Nat) (name : String) :
    (findTimers ts.map name = none → ts.stop now name = ts) ∧
    (∀ e t, findTimers ts.map name = some e → e.getLast? = some t →
      findTimers (ts.stop now name).map name =
        some (e.dropLast ++ [{ t with time := now - t.start }]) ∧
      ∀ other, other ≠ name →
        findTimers (ts.stop now name).map other = findTimers ts.map other) := by
  constructor
  · intro h
    simp only [Timers.stop]
    rw [andModify_of_not_found ts.map name _ h]
  · intro e t he ht
    constructor
    · rw [Timers.stop]
      simp only
      rw [findTimers_andModify_self ts.map name _ e he, ht]
    · intro other hother
      rw [Timers.stop]
      simp only
      rw [findTimers_andModify_other ts.map name other _ hother]

/-- Witness for C8 amended: stopping `"y"` on an empty service is a
no-op, and stopping started `"x"` records its elapsed time. -/
theorem c8_witness :
    Timers.new.stop 5 "y" = Timers.new ∧
    findTimers (((Timers.new.start 0 "x").stop 4 "x").map) "x" =
      some [{ start := 0, time := 4 }] :=
  ⟨(c8_stop_amended Timers.new 5 "y").1 rfl,
   ((c8_stop_amended (Timers.new.start 0 "x") 4 "x").2
      [{ start := 0, time := 0 }] { start := 0, time := 0 } rfl rfl).1⟩

end VaccelTorch
